import Mathlib

/-!
Verification of the `bevy_quickstart` per-frame simulation core.

This file gives a shallow embedding of the repository's three subsystems —
the movement pipeline (`src/game/movement.rs`, `src/demo/player.rs`), the
splash-screen state machine (`src/screens/splash.rs`), and the spawn cascade
(`src/game/spawn/level.rs`, `src/demo/level.rs`) — and proves the spec's
claims about them.

Modelling conventions:
* Durations and timer state are rationals (`ℚ`); the movement vectors, which
  involve a square root under normalization, are pairs of reals.
* Bevy's `Timer` (an external engine type used by the code) is embedded with
  its documented semantics for the two modes the code uses (`Once` for the
  splash timer, `Repeating` for the step-sound cadence).
* Division by zero follows the Lean convention `x / 0 = 0`; where a claim
  depends on the zero-denominator case this is noted at the theorem.
-/

namespace Quickstart

/-! ### Bevy timers

The splash screen uses `Timer::from_seconds(_, TimerMode::Once)` and the step
cadence a repeating timer.  `tick` adds the elapsed duration; `justFinished`
is true exactly on a tick that reaches the duration (edge-triggered).  A
`Once` timer that is already finished ignores further ticks and reports
`justFinished = false` on them. -/

/-- A Bevy `Timer` in `TimerMode::Once`: elapsed time is clamped at the
duration, `finished` stays set once reached, and `justFinished` holds only on
the tick where the duration was first reached. -/
structure OnceTimer where
  duration : ℚ
  elapsed : ℚ
  finished : Bool
  justFinished : Bool
deriving DecidableEq, Repr

/-- Bevy `Timer::from_seconds(d, TimerMode::Once)`. -/
def OnceTimer.fromSeconds (d : ℚ) : OnceTimer :=
  { duration := d, elapsed := 0, finished := false, justFinished := false }

/-- Bevy `Timer::tick` for a `Once` timer: a finished timer ignores the tick
(and no longer reports `justFinished`); otherwise elapsed time accumulates,
clamped at the duration, and finishing is detected. -/
def OnceTimer.tick (t : OnceTimer) (d : ℚ) : OnceTimer :=
  if t.finished then { t with justFinished := false }
  else
    let e := min (t.elapsed + d) t.duration
    { t with
      elapsed := e
      finished := decide (t.duration ≤ e)
      justFinished := decide (t.duration ≤ e) }

/-- Bevy `Timer::reset`: clears elapsed time and the finished flags. -/
def OnceTimer.reset (t : OnceTimer) : OnceTimer :=
  { t with elapsed := 0, finished := false, justFinished := false }

/-- A Bevy `Timer` in `TimerMode::Repeating`: on reaching the duration it
wraps the elapsed time and reports `justFinished` for that tick only.  The
time type is a parameter so the same embedding serves the rational-time
cadence model and the real-time pipeline model. -/
structure RepeatingTimer (α : Type) where
  duration : α
  elapsed : α
  justFinished : Bool
deriving DecidableEq, Repr

/-- Bevy `Timer::tick` for a `Repeating` timer: elapsed time accumulates and
wraps modulo the duration when it completes; `justFinished` holds exactly on
a completing tick.  (A zero-duration repeating timer completes on every tick,
as in Bevy.) -/
def RepeatingTimer.tick {α : Type} [LinearOrderedField α] [FloorRing α]
    (t : RepeatingTimer α) (d : α) : RepeatingTimer α :=
  if 0 < t.duration then
    let total := t.elapsed + d
    if t.duration ≤ total then
      { t with
        elapsed := total - t.duration * (⌊total / t.duration⌋ : ℤ)
        justFinished := true }
    else
      { t with elapsed := total, justFinished := false }
  else
    { t with elapsed := 0, justFinished := true }

/-! ### Splash screen (`src/screens/splash.rs`)

State visible to the splash systems: the image queue resource
(`SplashScreenImageList`, a `VecDeque` consumed front-to-back), the
`SplashTimer` resource, the presence of the `SplashScreenContainer` entity,
the current splash-image child of that container (its path together with its
`UiImageFadeInOut` component), and the number of `next_screen.set(..)` calls
issued (`requests`).  Image paths are modelled as opaque numeric
identifiers. -/

/-- Constant `SPLASH_DURATION_SECS` from splash.rs. -/
def SPLASH_DURATION_SECS : ℚ := 1.8

/-- Constant `SPLASH_FADE_DURATION_SECS` from splash.rs. -/
def SPLASH_FADE_DURATION_SECS : ℚ := 0.6

/-- Component `UiImageFadeInOut` from splash.rs: total duration, fade
duration, and current progress `t`, all in seconds. -/
structure UiImageFadeInOut where
  total_duration : ℚ
  fade_duration : ℚ
  t : ℚ
deriving DecidableEq, Repr

/-- Rust `f32::clamp` on exact numbers: `min (max x lo) hi`. -/
def clampQ (x lo hi : ℚ) : ℚ := min (max x lo) hi

/-- Method `UiImageFadeInOut::alpha` from splash.rs: normalize progress by
the total duration, clamp to `[0, 1]`, and evaluate the trapezoid
`min ((1 - |2t - 1|) / fade) 1` where `fade` is the fade fraction.  Division
by a zero `total_duration` is the Lean convention `x / 0 = 0` here, where the
Rust original produces infinities and NaNs. -/
def UiImageFadeInOut.alpha (s : UiImageFadeInOut) : ℚ :=
  let t := clampQ (s.t / s.total_duration) 0 1
  let fade := s.fade_duration / s.total_duration
  min ((1 - |2 * t - 1|) / fade) 1

/-- The whole splash-screen state while `Screen::Splash` is active. -/
structure SplashState where
  images : List ℕ
  timer : OnceTimer
  container : Bool
  display : Option (ℕ × UiImageFadeInOut)
  requests : ℕ
deriving DecidableEq, Repr

/-- Function `splash_image_bundle` from splash.rs: the new splash-image child,
carrying a fresh `UiImageFadeInOut` starting at `t = 0`. -/
def splash_image_bundle (path : ℕ) : ℕ × UiImageFadeInOut :=
  (path, { total_duration := SPLASH_DURATION_SECS
           fade_duration := SPLASH_FADE_DURATION_SECS
           t := 0 })

/-- Systems `spawn_splash` and `insert_splash_timer` from splash.rs, both run
on `OnEnter(Screen::Splash)`: with an empty image list, immediately request
the next screen and never construct the container; otherwise spawn the
container with no image child yet.  The `SplashTimer` resource is inserted
fresh in both cases. -/
def spawn_splash (images : List ℕ) : SplashState :=
  if images.isEmpty then
    { images := images
      timer := OnceTimer.fromSeconds SPLASH_DURATION_SECS
      container := false
      display := none
      requests := 1 }
  else
    { images := images
      timer := OnceTimer.fromSeconds SPLASH_DURATION_SECS
      container := true
      display := none
      requests := 0 }

/-- System `tick_fade_in_out` from splash.rs: advance `t` of every
`UiImageFadeInOut` by the elapsed time. -/
def tick_fade_in_out (dt : ℚ) (s : SplashState) : SplashState :=
  { s with display := s.display.map fun pa => (pa.1, { pa.2 with t := pa.2.t + dt }) }

/-- System `tick_splash_timer` from splash.rs: advance the `SplashTimer`. -/
def tick_splash_timer (dt : ℚ) (s : SplashState) : SplashState :=
  { s with timer := s.timer.tick dt }

/-- System `check_splash_timer` from splash.rs: on the tick where the splash
timer just finished, pop the next image from the queue; if one is present,
replace the container's children with a fresh image display (when the
container lookup succeeds — otherwise that update is skipped) and reset the
timer; if the queue was empty, request the next screen. -/
def check_splash_timer (s : SplashState) : SplashState :=
  if ¬ s.timer.justFinished then s
  else
    match s.images with
    | next :: rest =>
        let s1 := { s with images := rest }
        let s2 := if s1.container
          then { s1 with display := some (splash_image_bundle next) }
          else s1
        { s2 with timer := s2.timer.reset }
    | [] => { s with requests := s.requests + 1 }

/-- One `Update` schedule pass of the splash systems while in
`Screen::Splash`: the `TickTimers` set (`tick_fade_in_out`,
`tick_splash_timer`) runs before the `Update` set (`check_splash_timer`). -/
def splash_tick (dt : ℚ) (s : SplashState) : SplashState :=
  check_splash_timer (tick_splash_timer dt (tick_fade_in_out dt s))

/-- A run of consecutive frames with the given elapsed times. -/
def splash_run (dts : List ℚ) (s : SplashState) : SplashState :=
  dts.foldl (fun s d => splash_tick d s) s

/-! ### Movement pipeline (`src/game/movement.rs`, `src/demo/player.rs`)

Vectors are pairs/triples of reals; Bevy's `Vec2`/`Vec3` float operations
are embedded as their exact real counterparts. -/

/-- Bevy `Vec2`. -/
structure Vec2 where
  x : ℝ
  y : ℝ

/-- Bevy `Vec2::ZERO`. -/
def Vec2.ZERO : Vec2 := ⟨0, 0⟩

/-- Bevy `Vec2::length`: the Euclidean norm. -/
noncomputable def Vec2.length (v : Vec2) : ℝ :=
  Real.sqrt (v.x * v.x + v.y * v.y)

/-- Bevy `Vec2::normalize_or_zero`: scale to unit length, or return
`Vec2::ZERO` when the length is zero (over the reals the only case where
Bevy's reciprocal-length is not finite and positive). -/
noncomputable def Vec2.normalize_or_zero (v : Vec2) : Vec2 :=
  if v.length = 0 then Vec2.ZERO else ⟨v.x / v.length, v.y / v.length⟩

/-- Scalar-times-vector, Bevy `f32 * Vec2`. -/
def Vec2.scale (c : ℝ) (v : Vec2) : Vec2 := ⟨c * v.x, c * v.y⟩

instance : HMul ℝ Vec2 Vec2 := ⟨Vec2.scale⟩

/-- Bevy `Vec3`. -/
structure Vec3 where
  x : ℝ
  y : ℝ
  z : ℝ

/-- Bevy `Vec2::extend`: append a `z` component. -/
def Vec2.extend (v : Vec2) (z : ℝ) : Vec3 := ⟨v.x, v.y, z⟩

/-- Componentwise addition, Bevy `Vec3 + Vec3`. -/
def Vec3.add (a b : Vec3) : Vec3 := ⟨a.x + b.x, a.y + b.y, a.z + b.z⟩

instance : Add Vec3 := ⟨Vec3.add⟩

/-- Vector-times-scalar, Bevy `Vec3 * f32`. -/
def Vec3.scale (v : Vec3) (c : ℝ) : Vec3 := ⟨v.x * c, v.y * c, v.z * c⟩

instance : HMul Vec3 ℝ Vec3 := ⟨Vec3.scale⟩

/-- The keyboard state read through `Res<ButtonInput<KeyCode>>`: pressed
state of the eight movement keys. -/
structure KeyState where
  keyW : Bool
  keyS : Bool
  keyA : Bool
  keyD : Bool
  arrowUp : Bool
  arrowDown : Bool
  arrowLeft : Bool
  arrowRight : Bool

/-- Intent computation shared (character for character) by
`record_movement_controller` in src/game/movement.rs and
`record_player_directional_input` in src/demo/player.rs: sum signed unit
contributions per axis from the four directions (each with a WASD and an
arrow-key binding), then `normalize_or_zero`. -/
noncomputable def record_movement_intent (input : KeyState) : Vec2 :=
  let intent : Vec2 := Vec2.ZERO
  let intent := if input.keyW || input.arrowUp then { intent with y := intent.y + 1 } else intent
  let intent := if input.keyS || input.arrowDown then { intent with y := intent.y - 1 } else intent
  let intent := if input.keyA || input.arrowLeft then { intent with x := intent.x - 1 } else intent
  let intent := if input.keyD || input.arrowRight then { intent with x := intent.x + 1 } else intent
  intent.normalize_or_zero

/-- System `record_movement_controller` from src/game/movement.rs: write the
tick's intent into every `MovementController` (a broadcast write). -/
noncomputable def record_movement_controller (input : KeyState)
    (controllers : List Vec2) : List Vec2 :=
  controllers.map fun _ => record_movement_intent input

/-- System `record_player_directional_input` from src/demo/player.rs: the
identical broadcast, over the player-filtered controller query. -/
noncomputable def record_player_directional_input (input : KeyState)
    (controllers : List Vec2) : List Vec2 :=
  controllers.map fun _ => record_movement_intent input

/-- An entity carrying all movement-relevant components:
`MovementController` (intent), `Movement` (speed), `Transform`
(translation), `Sprite` (flip_x) and `StepSfx` (cadence timer, modelled over
the reals here to share the tick's `delta_seconds`). -/
structure GameEntity where
  controller : Vec2
  speed : ℝ
  translation : Vec3
  flipX : Bool
  step : RepeatingTimer ℝ

/-- Loop body of `record_movement_controller` for one entity. -/
noncomputable def record_step (input : KeyState) (e : GameEntity) : GameEntity :=
  { e with controller := record_movement_intent input }

/-- Loop body of system `apply_movement` from src/game/movement.rs:
`translation += (speed * intent).extend(0) * delta_seconds`. -/
noncomputable def apply_movement_step (dt : ℝ) (e : GameEntity) : GameEntity :=
  let velocity := e.speed * e.controller
  let velocity := velocity.extend 0
  { e with translation := e.translation + velocity * dt }

/-- System `apply_movement`: integrate every mobile entity. -/
noncomputable def apply_movement (dt : ℝ) (es : List GameEntity) : List GameEntity :=
  es.map (apply_movement_step dt)

/-- Loop body of system `update_facing` from src/game/movement.rs: flip the
sprite only when the horizontal intent is non-zero. -/
noncomputable def update_facing_step (e : GameEntity) : GameEntity :=
  if e.controller.x ≠ 0 then { e with flipX := decide (e.controller.x < 0) } else e

/-- Loop body of system `tick_step_sfx` from src/game/movement.rs: advance
the cadence timer by the elapsed time (the intent is not consulted). -/
noncomputable def tick_step_sfx_step (dt : ℝ) (e : GameEntity) : GameEntity :=
  { e with step := e.step.tick dt }

/-- One `Update` pass over a movement entity, in the spec's within-tick
order: input capture, integration, facing, timer tick.  The step-sound
trigger pass reads but never writes entity state. -/
noncomputable def game_tick_entity (input : KeyState) (dt : ℝ) (e : GameEntity) :
    GameEntity :=
  tick_step_sfx_step dt (update_facing_step (apply_movement_step dt (record_step input e)))

/-! ### Step-sound cadence (claims about `tick_step_sfx` / `trigger_step_sfx`)

For the cadence claims the relevant components are the controller and the
`StepSfx` timer; time is rational here so that witnesses evaluate. -/

/-- An entity as seen by the step-sound systems: its `MovementController`
and its `StepSfx` repeating timer. -/
structure StepEntity where
  controller : Vec2
  step : RepeatingTimer ℚ

/-- System `tick_step_sfx` for one entity: tick the timer by the elapsed
time, regardless of the intent. -/
noncomputable def step_entity_tick (dt : ℚ) (e : StepEntity) : StepEntity :=
  { e with step := e.step.tick dt }

/-- Condition of system `trigger_step_sfx` from src/game/movement.rs: a
`Sfx::Step` event is triggered for an entity exactly when its intent is
non-zero and its timer just finished this tick. -/
def step_event (e : StepEntity) : Prop :=
  ¬ e.controller = Vec2.ZERO ∧ e.step.justFinished = true

/-! ### Spawn cascade (`src/game/spawn/level.rs`, `src/demo/level.rs`)

A world is a list of entities, each a list of components; component
payloads (names, texture handles, transforms) are irrelevant to the claims
and dropped. -/

/-- Component kinds inserted by the spawn handlers. -/
inductive Comp where
  | name
  | levelMarker
  | playerMarker
  | camera
  | spatialBundle
  | spriteBundle
  | textureAtlas
  | playerAnimation
  | movementController
  | screenWrap
deriving DecidableEq, Repr

/-- A world: entity id = list index, entity = its components. -/
abbrev World := List (List Comp)

/-- Insert components onto an existing entity (no-op on an absent id, as
Bevy commands on a missing entity would be a caller error, not reached
here). -/
def insertComps (id : ℕ) (cs : List Comp) (w : World) : World :=
  w.set id (w.getD id [] ++ cs)

/-- Components inserted by `player` in src/demo/player.rs: name, `Player`
marker, sprite, texture atlas, animation, movement controller, screen
wrap. -/
def playerComponents : List Comp :=
  [Comp.name, Comp.playerMarker, Comp.spriteBundle, Comp.textureAtlas,
   Comp.playerAnimation, Comp.movementController, Comp.screenWrap]

/-- Constructor `player` from src/demo/player.rs: insert the player's own
components on its entity. -/
def player (id : ℕ) (w : World) : World := insertComps id playerComponents w

/-- Modelled from the spec: `spawn_with` of the spawn utility
(`crate::spawn::prelude`, not under src/) — allocate a fresh child entity
and run its constructor on it synchronously, to completion, before
returning (spec 4.5 and 9: synchronous dispatch, depth-first). -/
def spawn_with (ctor : ℕ → World → World) (w : World) : World :=
  ctor w.length (w ++ [[]])

/-- Constructor `level` from src/demo/level.rs: insert the level's own
components (name, `Level` marker, spatial root), then spawn the player
child through `spawn_with`. -/
def level (id : ℕ) (w : World) : World :=
  spawn_with player (insertComps id [Comp.name, Comp.levelMarker, Comp.spatialBundle] w)

/-- Modelled from the spec: the `SpawnPlayer` observer
(src/game/spawn/player.rs is declared in mod.rs but not under src/) —
handling `SpawnPlayer` constructs exactly one player entity. -/
def spawn_player_observer (w : World) : World := w ++ [playerComponents]

/-- Observer `spawn_level` from src/game/spawn/level.rs: spawn the camera,
then trigger `SpawnPlayer`; the nested trigger is handled synchronously
before the level-spawn handling completes (spec 4.5 ordering guarantee). -/
def spawn_level (w : World) : World := spawn_player_observer (w ++ [[Comp.camera]])

/-- An entity is a player entity when it carries the `Player` marker. -/
def isPlayer (e : List Comp) : Bool := decide (Comp.playerMarker ∈ e)

/-- Number of player entities in the world. -/
def playerCount (w : World) : ℕ := w.countP isPlayer

/-! ### Splash-screen lemmas -/

/-- Once the splash timer has finished and its completion has been handled,
further frames change nothing observable: a finished `Once` timer never
reports `justFinished` again, so `check_splash_timer` returns early.  In
particular no further next-screen requests are issued. -/
lemma splash_run_requests_of_finished (dts : List ℚ) :
    ∀ s : SplashState, s.timer.finished = true →
      (splash_run dts s).requests = s.requests ∧
        (splash_run dts s).timer.finished = true := by
  induction dts with
  | nil => intro s h; exact ⟨rfl, h⟩
  | cons d dts ih =>
      intro s h
      have hstep : splash_tick d s =
          { s with timer := { s.timer with justFinished := false },
                   display := s.display.map
                     fun pa => (pa.1, { pa.2 with t := pa.2.t + d }) } := by
        simp [splash_tick, tick_fade_in_out, tick_splash_timer,
          check_splash_timer, OnceTimer.tick, h]
      have := ih (splash_tick d s) (by rw [hstep]; exact h)
      simpa [splash_run, hstep] using this

/-- While the accumulated elapsed time stays strictly below the splash
duration, every frame leaves the splash state unchanged except for the
timer's elapsed time: in particular no image child is ever constructed. -/
lemma splash_run_before_first_completion (img : ℕ) (rest : List ℕ) :
    ∀ (dts : List ℚ) (e : ℚ), 0 ≤ e → (∀ x ∈ dts, 0 ≤ x) →
      e + dts.sum < SPLASH_DURATION_SECS →
      splash_run dts
          { images := img :: rest
            timer := ⟨SPLASH_DURATION_SECS, e, false, false⟩
            container := true, display := none, requests := 0 }
        = { images := img :: rest
            timer := ⟨SPLASH_DURATION_SECS, e + dts.sum, false, false⟩
            container := true, display := none, requests := 0 } := by
  intro dts
  induction dts with
  | nil => intro e he hdts hsum; simp [splash_run]
  | cons d dts ih =>
      intro e he hdts hsum
      have hd : 0 ≤ d := hdts d (by simp)
      have hsum' : 0 ≤ dts.sum := List.sum_nonneg fun x hx => hdts x (by simp [hx])
      have hlt : e + d < SPLASH_DURATION_SECS := by
        have := hsum
        simp only [List.sum_cons] at this
        linarith
      have hstep : splash_tick d
          ({ images := img :: rest
             timer := ⟨SPLASH_DURATION_SECS, e, false, false⟩
             container := true, display := none, requests := 0 } : SplashState)
          = { images := img :: rest
              timer := ⟨SPLASH_DURATION_SECS, e + d, false, false⟩
              container := true, display := none, requests := 0 } := by
        simp [splash_tick, tick_fade_in_out, tick_splash_timer,
          check_splash_timer, OnceTimer.tick, min_eq_left hlt.le,
          not_le.mpr hlt]
      have hrec := ih (e + d) (by linarith) (fun x hx => hdts x (by simp [hx]))
        (by simp only [List.sum_cons] at hsum; linarith)
      calc splash_run (d :: dts)
            { images := img :: rest
              timer := ⟨SPLASH_DURATION_SECS, e, false, false⟩
              container := true, display := none, requests := 0 }
          = splash_run dts (splash_tick d
              { images := img :: rest
                timer := ⟨SPLASH_DURATION_SECS, e, false, false⟩
                container := true, display := none, requests := 0 }) := rfl
        _ = _ := by rw [hstep, hrec]; simp [List.sum_cons]; ring_nf

/-- On the frame whose elapsed time pushes the timer across the splash
duration, the first queued image is popped and displayed with a fresh fade
state at `t = 0`, and the timer is reset. -/
lemma splash_tick_first_completion (img : ℕ) (rest : List ℕ) (e d : ℚ)
    (hcross : SPLASH_DURATION_SECS ≤ e + d) :
    splash_tick d
        ({ images := img :: rest
           timer := ⟨SPLASH_DURATION_SECS, e, false, false⟩
           container := true, display := none, requests := 0 } : SplashState)
      = { images := rest
          timer := ⟨SPLASH_DURATION_SECS, 0, false, false⟩
          container := true, display := some (splash_image_bundle img)
          requests := 0 } := by
  simp [splash_tick, tick_fade_in_out, tick_splash_timer, check_splash_timer,
    OnceTimer.tick, OnceTimer.reset, min_eq_right hcross]

/-! ### Claims C3, C9, C10 -/

/-- C3, counterexample: with a 2-image queue, the first completion of the
splash timer displays image 1 (the queue's front), not image 2, and after
the second completion no next-screen request has been emitted yet (the
second completion still finds image 2 in the queue and displays it). -/
theorem c3_counterexample :
    (splash_run [(1.8 : ℚ)] (spawn_splash [10, 20])).display.map Prod.fst = some 10
    ∧ ¬ (splash_run [(1.8 : ℚ)] (spawn_splash [10, 20])).display.map Prod.fst = some 20
    ∧ (splash_run [(1.8 : ℚ), 1.8] (spawn_splash [10, 20])).requests = 0 := by
  norm_num [splash_run, splash_tick, tick_fade_in_out, tick_splash_timer,
    check_splash_timer, spawn_splash, OnceTimer.fromSeconds, OnceTimer.tick,
    OnceTimer.reset, splash_image_bundle, SPLASH_DURATION_SECS,
    SPLASH_FADE_DURATION_SECS]

/-- C3 (amended): for a splash screen entered with a 2-image queue, the
container is spawned with no image child; the first timer completion
displays image 1 with a fresh fade state at `t = 0` and resets the timer;
the second completion swaps the display to image 2 (again fresh, timer
reset); the third completion, finding the queue empty, emits exactly one
next-screen request — and no later frame ever emits another. -/
theorem c3_splash_sequence :
    (spawn_splash [10, 20]).container = true
    ∧ (spawn_splash [10, 20]).display = none
    ∧ (splash_run [(1.8 : ℚ)] (spawn_splash [10, 20])).display
        = some (splash_image_bundle 10)
    ∧ (splash_run [(1.8 : ℚ)] (spawn_splash [10, 20])).timer.elapsed = 0
    ∧ (splash_run [(1.8 : ℚ)] (spawn_splash [10, 20])).images = [20]
    ∧ (splash_run [(1.8 : ℚ), 1.8] (spawn_splash [10, 20])).display
        = some (splash_image_bundle 20)
    ∧ (splash_run [(1.8 : ℚ), 1.8] (spawn_splash [10, 20])).requests = 0
    ∧ (∀ dts : List ℚ,
        (splash_run ((1.8 : ℚ) :: 1.8 :: 1.8 :: dts) (spawn_splash [10, 20])).requests
          = 1) := by
  have h3 : (splash_run [(1.8 : ℚ), 1.8, 1.8] (spawn_splash [10, 20])).requests = 1
      ∧ (splash_run [(1.8 : ℚ), 1.8, 1.8] (spawn_splash [10, 20])).timer.finished
          = true := by
    norm_num [splash_run, splash_tick, tick_fade_in_out, tick_splash_timer,
      check_splash_timer, spawn_splash, OnceTimer.fromSeconds, OnceTimer.tick,
      OnceTimer.reset, splash_image_bundle, SPLASH_DURATION_SECS,
      SPLASH_FADE_DURATION_SECS]
  refine ⟨?_, ?_, ?_, ?_, ?_, ?_, ?_, ?_⟩
  · norm_num [spawn_splash]
  · norm_num [spawn_splash]
  · norm_num [splash_run, splash_tick, tick_fade_in_out, tick_splash_timer,
      check_splash_timer, spawn_splash, OnceTimer.fromSeconds, OnceTimer.tick,
      OnceTimer.reset, splash_image_bundle, SPLASH_DURATION_SECS,
      SPLASH_FADE_DURATION_SECS]
  · norm_num [splash_run, splash_tick, tick_fade_in_out, tick_splash_timer,
      check_splash_timer, spawn_splash, OnceTimer.fromSeconds, OnceTimer.tick,
      OnceTimer.reset, splash_image_bundle, SPLASH_DURATION_SECS,
      SPLASH_FADE_DURATION_SECS]
  · norm_num [splash_run, splash_tick, tick_fade_in_out, tick_splash_timer,
      check_splash_timer, spawn_splash, OnceTimer.fromSeconds, OnceTimer.tick,
      OnceTimer.reset, splash_image_bundle, SPLASH_DURATION_SECS,
      SPLASH_FADE_DURATION_SECS]
  · norm_num [splash_run, splash_tick, tick_fade_in_out, tick_splash_timer,
      check_splash_timer, spawn_splash, OnceTimer.fromSeconds, OnceTimer.tick,
      OnceTimer.reset, splash_image_bundle, SPLASH_DURATION_SECS,
      SPLASH_FADE_DURATION_SECS]
  · norm_num [splash_run, splash_tick, tick_fade_in_out, tick_splash_timer,
      check_splash_timer, spawn_splash, OnceTimer.fromSeconds, OnceTimer.tick,
      OnceTimer.reset, splash_image_bundle, SPLASH_DURATION_SECS,
      SPLASH_FADE_DURATION_SECS]
  · intro dts
    have hrun : splash_run ((1.8 : ℚ) :: 1.8 :: 1.8 :: dts) (spawn_splash [10, 20])
        = splash_run dts (splash_run [(1.8 : ℚ), 1.8, 1.8] (spawn_splash [10, 20])) :=
      rfl
    rw [hrun, (splash_run_requests_of_finished dts _ h3.2).1, h3.1]

/-- C9, counterexample: when the splash timer completes with images
remaining but no container present, the state is not left unchanged — the
front image is still popped off the queue and the timer is still reset. -/
theorem c9_counterexample :
    (check_splash_timer
        { images := [10], timer := ⟨1.8, 1.8, true, true⟩
          container := false, display := none, requests := 0 }).images ≠ [10]
    ∧ (check_splash_timer
        { images := [10], timer := ⟨1.8, 1.8, true, true⟩
          container := false, display := none, requests := 0 }).timer.elapsed
        ≠ (1.8 : ℚ) := by
  norm_num [check_splash_timer, OnceTimer.reset]

/-- C9 (amended): when the splash timer completes on a tick with images
remaining but no splash container present, only the display update is
skipped: the display and the request count are unchanged and no fault is
raised, but the front image is still popped off the queue and the timer is
still reset. -/
theorem c9_container_absent_skips_display_only (s : SplashState) (img : ℕ)
    (rest : List ℕ) (hjf : s.timer.justFinished = true)
    (hc : s.container = false) (himg : s.images = img :: rest) :
    check_splash_timer s = { s with images := rest, timer := s.timer.reset } := by
  simp [check_splash_timer, hjf, hc, himg]

/-- C9 witness: the amended theorem evaluated at a concrete state. -/
theorem c9_witness :
    check_splash_timer
        { images := [10], timer := ⟨1.8, 1.8, true, true⟩
          container := false, display := none, requests := 0 }
      = { images := [], timer := ⟨1.8, 0, false, false⟩
          container := false, display := none, requests := 0 } := by
  rw [c9_container_absent_skips_display_only
    { images := [10], timer := ⟨1.8, 1.8, true, true⟩
      container := false, display := none, requests := 0 } 10 [] rfl rfl rfl]
  norm_num [OnceTimer.reset]

/-- C10: after entering the splash screen with a non-empty image queue, the
container is constructed with no image child, and no splash image (hence no
fade state) exists on any frame until the splash timer first completes; the
frame whose elapsed time crosses the splash duration then displays the
first image. -/
theorem c10_no_image_before_first_completion (img : ℕ) (rest : List ℕ)
    (dts : List ℚ) (d : ℚ) (hdts : ∀ x ∈ dts, 0 ≤ x)
    (hsum : dts.sum < SPLASH_DURATION_SECS)
    (hcross : SPLASH_DURATION_SECS ≤ dts.sum + d) :
    (spawn_splash (img :: rest)).container = true
    ∧ (spawn_splash (img :: rest)).display = none
    ∧ (splash_run dts (spawn_splash (img :: rest))).display = none
    ∧ (splash_tick d (splash_run dts (spawn_splash (img :: rest)))).display
        = some (splash_image_bundle img) := by
  have hspawn : spawn_splash (img :: rest)
      = { images := img :: rest
          timer := ⟨SPLASH_DURATION_SECS, 0, false, false⟩
          container := true, display := none, requests := 0 } := by
    simp [spawn_splash, OnceTimer.fromSeconds]
  have hrun := splash_run_before_first_completion img rest dts 0 le_rfl hdts
    (by simpa using hsum)
  rw [zero_add] at hrun
  refine ⟨by rw [hspawn], by rw [hspawn], ?_, ?_⟩
  · rw [hspawn, hrun]
  · rw [hspawn, hrun,
      splash_tick_first_completion img rest dts.sum d (by simpa using hcross)]

/-- C10 witness: two short frames stay image-free, the crossing frame shows
the first image. -/
theorem c10_witness :
    (splash_run [(0.5 : ℚ), 0.9] (spawn_splash [10])).display = none
    ∧ (splash_tick 0.4 (splash_run [(0.5 : ℚ), 0.9] (spawn_splash [10]))).display
        = some (splash_image_bundle 10) := by
  have h := c10_no_image_before_first_completion 10 [] [(0.5 : ℚ), 0.9] 0.4
    (by intro x hx; simp at hx; rcases hx with h | h <;> norm_num [h])
    (by norm_num [SPLASH_DURATION_SECS])
    (by norm_num [SPLASH_DURATION_SECS])
  exact ⟨h.2.2.1, h.2.2.2⟩

/-! ### Claims C7, C8 — the fade function -/

/-- C7, counterexample: with a negative fade duration the trapezoid value is
negative, so the result of `alpha` does not always lie in `[0, 1]`: at
`total_duration = 1.8`, `fade_duration = -0.6`, `t = 0.9` it is `-3`. -/
theorem c7_counterexample :
    ¬ (0 ≤ UiImageFadeInOut.alpha
          { total_duration := 1.8, fade_duration := -0.6, t := 0.9 }
        ∧ UiImageFadeInOut.alpha
          { total_duration := 1.8, fade_duration := -0.6, t := 0.9 } ≤ 1) := by
  norm_num [UiImageFadeInOut.alpha, clampQ]

/-- C7 (amended): the fade function is pure and equals
`min ((1 - |2u - 1|) / f) 1` with `u = clamp (t / total) 0 1` and
`f = fade / total`; for nonnegative durations the result lies in `[0, 1]`;
and the three boundary/midpoint values of the shipped trapezoid hold:
`alpha (t := 0) = 0`, `alpha (t := 0.9) = 1`, `alpha (t := 1.8) = 0`. -/
theorem c7_alpha_trapezoid (s : UiImageFadeInOut)
    (htot : 0 ≤ s.total_duration) (hfade : 0 ≤ s.fade_duration) :
    s.alpha
      = min ((1 - |2 * clampQ (s.t / s.total_duration) 0 1 - 1|)
          / (s.fade_duration / s.total_duration)) 1
    ∧ 0 ≤ s.alpha ∧ s.alpha ≤ 1
    ∧ UiImageFadeInOut.alpha { total_duration := 1.8, fade_duration := 0.6, t := 0 } = 0
    ∧ UiImageFadeInOut.alpha { total_duration := 1.8, fade_duration := 0.6, t := 0.9 } = 1
    ∧ UiImageFadeInOut.alpha { total_duration := 1.8, fade_duration := 0.6, t := 1.8 } = 0 := by
  have halpha : s.alpha
      = min ((1 - |2 * clampQ (s.t / s.total_duration) 0 1 - 1|)
          / (s.fade_duration / s.total_duration)) 1 := rfl
  have hu0 : 0 ≤ clampQ (s.t / s.total_duration) 0 1 :=
    le_min (le_max_right _ 0) zero_le_one
  have hu1 : clampQ (s.t / s.total_duration) 0 1 ≤ 1 := min_le_right _ _
  have habs : |2 * clampQ (s.t / s.total_duration) 0 1 - 1| ≤ 1 :=
    abs_le.mpr ⟨by linarith, by linarith⟩
  have hN : 0 ≤ 1 - |2 * clampQ (s.t / s.total_duration) 0 1 - 1| := by linarith
  refine ⟨halpha, ?_, ?_, ?_, ?_, ?_⟩
  · rw [halpha]
    exact le_min (div_nonneg hN (div_nonneg hfade htot)) zero_le_one
  · rw [halpha]; exact min_le_right _ _
  · norm_num [UiImageFadeInOut.alpha, clampQ]
  · norm_num [UiImageFadeInOut.alpha, clampQ]
  · norm_num [UiImageFadeInOut.alpha, clampQ]

/-- C7 witness: the amended theorem evaluated at the shipped fade state. -/
theorem c7_witness :
    0 ≤ UiImageFadeInOut.alpha
        { total_duration := 1.8, fade_duration := 0.6, t := 0.9 }
    ∧ UiImageFadeInOut.alpha
        { total_duration := 1.8, fade_duration := 0.6, t := 0.9 } ≤ 1 :=
  ⟨(c7_alpha_trapezoid { total_duration := 1.8, fade_duration := 0.6, t := 0.9 }
      (by norm_num) (by norm_num)).2.1,
   (c7_alpha_trapezoid { total_duration := 1.8, fade_duration := 0.6, t := 0.9 }
      (by norm_num) (by norm_num)).2.2.1⟩

/-- C8, counterexample: the implementation does not guard a zero
`total_duration`; modelling the division by zero as zero, `alpha` returns
`0` — fully transparent — not the claimed fully-opaque `1`.  (The Rust
`f32` evaluation at this input also returns `0.0`: `0.9 / 0.0` is `+inf`,
which clamps to `1`, and `0.0 / inf` is `0.0`.) -/
theorem c8_counterexample :
    UiImageFadeInOut.alpha { total_duration := 0, fade_duration := 0.6, t := 0.9 }
      ≠ 1 := by
  norm_num [UiImageFadeInOut.alpha, clampQ]

/-- C8 (amended): `alpha` divides by `total_duration` unguarded; with
`total_duration = 0` and positive `t` and positive `fade_duration` it
returns `0` — fully transparent — not the fully-opaque value `1`.  On this
regime the f32 program computes the same value by a different route:
`t / 0.0 = +inf` clamps to `1`, the trapezoid numerator vanishes, and
`0.0 / +inf = 0.0`, while the exact model reaches `0` through `t / 0 = 0`.
(Outside the regime, at `t = 0` or `fade_duration = 0`, f32 NaN propagation
makes the final `min` return `1.0` instead, which the exact embedding does
not capture; the theorem therefore claims nothing there.) -/
theorem c8_zero_total_transparent (fd t : ℚ) (_hfd : 0 < fd) (_ht : 0 < t) :
    UiImageFadeInOut.alpha { total_duration := 0, fade_duration := fd, t := t }
      = 0 := by
  norm_num [UiImageFadeInOut.alpha, clampQ]

/-- C8 witness: the amended theorem at the shipped fade duration and a
mid-run `t`. -/
theorem c8_witness :
    UiImageFadeInOut.alpha { total_duration := 0, fade_duration := 0.6, t := 0.9 }
      = 0 :=
  c8_zero_total_transparent 0.6 0.9 (by norm_num) (by norm_num)

/-! ### Movement lemmas -/

/-- The length of a vector vanishes exactly on the zero vector. -/
lemma Vec2.length_eq_zero_iff (v : Vec2) : v.length = 0 ↔ v = Vec2.ZERO := by
  obtain ⟨x, y⟩ := v
  constructor
  · intro h
    have hle : x * x + y * y ≤ 0 := Real.sqrt_eq_zero'.mp h
    have hx : x * x = 0 := by nlinarith [mul_self_nonneg x, mul_self_nonneg y]
    have hy : y * y = 0 := by nlinarith [mul_self_nonneg x, mul_self_nonneg y]
    simp [Vec2.ZERO, mul_self_eq_zero.mp hx, mul_self_eq_zero.mp hy]
  · intro h
    rw [h]
    simp [Vec2.ZERO, Vec2.length]

/-- Normalizing a non-zero vector yields a unit vector. -/
lemma Vec2.length_normalize_or_zero (v : Vec2) (h : ¬ v = Vec2.ZERO) :
    v.normalize_or_zero.length = 1 := by
  have hL : v.length ≠ 0 := fun h0 => h ((Vec2.length_eq_zero_iff v).mp h0)
  have hLpos : 0 < v.length := lt_of_le_of_ne (Real.sqrt_nonneg _) (Ne.symm hL)
  have hs : v.length * v.length = v.x * v.x + v.y * v.y :=
    Real.mul_self_sqrt (add_nonneg (mul_self_nonneg _) (mul_self_nonneg _))
  rw [Vec2.normalize_or_zero, if_neg hL]
  have key : v.x / v.length * (v.x / v.length) + v.y / v.length * (v.y / v.length)
      = 1 := by
    field_simp
    linarith [hs]
  rw [show Vec2.length ⟨v.x / v.length, v.y / v.length⟩
      = Real.sqrt (v.x / v.length * (v.x / v.length) + v.y / v.length * (v.y / v.length))
    from rfl, key, Real.sqrt_one]

/-- Normalization sends exactly the zero vector to the zero vector. -/
lemma Vec2.normalize_or_zero_eq_zero_iff (v : Vec2) :
    v.normalize_or_zero = Vec2.ZERO ↔ v = Vec2.ZERO := by
  constructor
  · intro h
    by_cases hL : v.length = 0
    · exact (Vec2.length_eq_zero_iff v).mp hL
    · rw [Vec2.normalize_or_zero, if_neg hL] at h
      have hx : v.x / v.length = 0 := congrArg Vec2.x h
      have hy : v.y / v.length = 0 := congrArg Vec2.y h
      obtain ⟨x, y⟩ := v
      simp only [Vec2.ZERO, Vec2.mk.injEq]
      exact ⟨by simpa [hL] using (div_eq_zero_iff.mp hx),
             by simpa [hL] using (div_eq_zero_iff.mp hy)⟩
  · intro h
    rw [h, Vec2.normalize_or_zero, if_pos ((Vec2.length_eq_zero_iff _).mpr rfl)]

/-- The raw (pre-normalization) intent summed by the recording systems. -/
lemma record_movement_intent_eq (input : KeyState) :
    record_movement_intent input = Vec2.normalize_or_zero
      ⟨(if input.keyD || input.arrowRight then (1 : ℝ) else 0)
          - (if input.keyA || input.arrowLeft then 1 else 0),
        (if input.keyW || input.arrowUp then (1 : ℝ) else 0)
          - (if input.keyS || input.arrowDown then 1 else 0)⟩ := by
  cases hW : input.keyW || input.arrowUp <;>
    cases hS : input.keyS || input.arrowDown <;>
      cases hA : input.keyA || input.arrowLeft <;>
        cases hD : input.keyD || input.arrowRight <;>
          simp [record_movement_intent, hW, hS, hA, hD, Vec2.ZERO]

/-- C1: each tick, every movement controller receives the same broadcast
intent; the intent is the normalization of the signed per-axis key sum, so
it is unit-length or exactly zero; and it is zero precisely when each axis's
effective inputs cancel (no keys, or only opposing keys); the player-input
system of src/demo/player.rs writes the identical value. -/
theorem c1_broadcast_normalized_intent (input : KeyState) (controllers : List Vec2) :
    (∀ c ∈ record_movement_controller input controllers,
        c = record_movement_intent input)
    ∧ ((record_movement_intent input).length = 1
        ∨ record_movement_intent input = Vec2.ZERO)
    ∧ (record_movement_intent input = Vec2.ZERO
        ↔ ((input.keyW || input.arrowUp) = (input.keyS || input.arrowDown)
            ∧ (input.keyA || input.arrowLeft) = (input.keyD || input.arrowRight)))
    ∧ (∀ c ∈ record_player_directional_input input controllers,
        c = record_movement_intent input) := by
  refine ⟨?_, ?_, ?_, ?_⟩
  · intro c hc
    rcases List.mem_map.mp hc with ⟨a, _, rfl⟩
    rfl
  · by_cases hz : record_movement_intent input = Vec2.ZERO
    · exact Or.inr hz
    · left
      rw [record_movement_intent_eq] at hz ⊢
      exact Vec2.length_normalize_or_zero _
        fun hraw => hz ((Vec2.normalize_or_zero_eq_zero_iff _).mpr hraw)
  · rw [record_movement_intent_eq, Vec2.normalize_or_zero_eq_zero_iff]
    cases hW : input.keyW || input.arrowUp <;>
      cases hS : input.keyS || input.arrowDown <;>
        cases hA : input.keyA || input.arrowLeft <;>
          cases hD : input.keyD || input.arrowRight <;>
            simp [Vec2.ZERO, Vec2.mk.injEq]
  · intro c hc
    rcases List.mem_map.mp hc with ⟨a, _, rfl⟩
    rfl

/-- C1 witness: with up and right pressed the recorded intent is unit-length
or zero (unit, by the diagonal normalization), and with nothing pressed the
zero intent is what the broadcast writes into a controller. -/
theorem c1_witness :
    ((record_movement_intent ⟨true, false, false, false, false, false, false, true⟩).length = 1
      ∨ record_movement_intent ⟨true, false, false, false, false, false, false, true⟩
          = Vec2.ZERO)
    ∧ Vec2.ZERO ∈ record_movement_controller
        ⟨false, false, false, false, false, false, false, false⟩ [⟨7, 7⟩] := by
  have h0 := c1_broadcast_normalized_intent
    ⟨false, false, false, false, false, false, false, false⟩ [⟨7, 7⟩]
  have hz : record_movement_intent
      ⟨false, false, false, false, false, false, false, false⟩ = Vec2.ZERO :=
    h0.2.2.1.mpr ⟨rfl, rfl⟩
  constructor
  · exact (c1_broadcast_normalized_intent
      ⟨true, false, false, false, false, false, false, true⟩ [Vec2.ZERO]).2.1
  · rw [← hz]
    simp [record_movement_controller]

/-- C2: one integration tick adds exactly `speed * intent * dt` to each 2D
position component and leaves the depth untouched; across a whole update
pass the same identity holds with the freshly recorded intent; and the other
passes (input recording, facing, timer tick) never mutate the position —
integration is the pipeline's only position write. -/
theorem c2_integration_step (input : KeyState) (dt : ℝ) (e : GameEntity) :
    ((apply_movement_step dt e).translation.x
        = e.translation.x + e.speed * e.controller.x * dt
      ∧ (apply_movement_step dt e).translation.y
        = e.translation.y + e.speed * e.controller.y * dt
      ∧ (apply_movement_step dt e).translation.z = e.translation.z)
    ∧ ((game_tick_entity input dt e).translation.x
        = e.translation.x + e.speed * (record_movement_intent input).x * dt
      ∧ (game_tick_entity input dt e).translation.y
        = e.translation.y + e.speed * (record_movement_intent input).y * dt
      ∧ (game_tick_entity input dt e).translation.z = e.translation.z)
    ∧ ((record_step input e).translation = e.translation
      ∧ (update_facing_step e).translation = e.translation
      ∧ (tick_step_sfx_step dt e).translation = e.translation) := by
  have hfac : ∀ g : GameEntity, (update_facing_step g).translation = g.translation := by
    intro g
    unfold update_facing_step
    split <;> rfl
  have hcomp : (game_tick_entity input dt e).translation
      = (apply_movement_step dt (record_step input e)).translation := by
    calc (game_tick_entity input dt e).translation
        = (update_facing_step (apply_movement_step dt (record_step input e))).translation :=
          rfl
      _ = (apply_movement_step dt (record_step input e)).translation := hfac _
  refine ⟨⟨rfl, rfl, ?_⟩, ⟨?_, ?_, ?_⟩, rfl, hfac e, rfl⟩
  · show e.translation.z + 0 * dt = e.translation.z
    ring
  · rw [hcomp]; rfl
  · rw [hcomp]; rfl
  · rw [hcomp]
    show e.translation.z + 0 * dt = e.translation.z
    ring

/-- C6: the facing flag is written only from the horizontal intent — when it
is non-zero the flag becomes `intent.x < 0`, when it is exactly zero the
prior flag is kept (sticky facing), and the vertical intent never matters. -/
theorem c6_sticky_facing (e : GameEntity) :
    (e.controller.x ≠ 0 →
      (update_facing_step e).flipX = decide (e.controller.x < 0))
    ∧ (e.controller.x = 0 → (update_facing_step e).flipX = e.flipX)
    ∧ (∀ y : ℝ,
        (update_facing_step { e with controller := ⟨e.controller.x, y⟩ }).flipX
          = (update_facing_step e).flipX) := by
  refine ⟨?_, ?_, ?_⟩
  · intro h
    simp [update_facing_step, h]
  · intro h
    simp [update_facing_step, h]
  · intro y
    by_cases hx : e.controller.x = 0 <;> simp [update_facing_step, hx]

/-- C6 witness: moving left sets the flag; zero horizontal intent keeps the
prior flag. -/
theorem c6_witness :
    (update_facing_step
        { controller := ⟨-1, 5⟩, speed := 0, translation := ⟨0, 0, 0⟩
          flipX := false, step := ⟨1, 0, false⟩ }).flipX = true
    ∧ (update_facing_step
        { controller := ⟨0, 5⟩, speed := 0, translation := ⟨0, 0, 0⟩
          flipX := true, step := ⟨1, 0, false⟩ }).flipX = true := by
  constructor
  · have h := (c6_sticky_facing
      { controller := ⟨-1, 5⟩, speed := 0, translation := ⟨0, 0, 0⟩
        flipX := false, step := ⟨1, 0, false⟩ }).1
      (show (-1 : ℝ) ≠ 0 by norm_num)
    rw [h]
    simp only [decide_eq_true_eq]
    show (-1 : ℝ) < 0
    norm_num
  · exact (c6_sticky_facing
      { controller := ⟨0, 5⟩, speed := 0, translation := ⟨0, 0, 0⟩
        flipX := true, step := ⟨1, 0, false⟩ }).2.1 rfl

/-- C5: the step-sound check is edge-triggered — after the timer pass, an
event fires for an entity exactly when its intent is non-zero and the timer
just completed on this very tick; the timer pass never consults the intent;
a zero intent suppresses the event even on a completing tick; and a tick
that does not reach the duration cannot fire, so a completion is never
re-reported on later ticks. -/
theorem c5_step_sfx_edge_trigger (e : StepEntity) (dt : ℚ) :
    (step_entity_tick dt e).step = e.step.tick dt
    ∧ (step_event (step_entity_tick dt e)
        ↔ (¬ e.controller = Vec2.ZERO ∧ (e.step.tick dt).justFinished = true))
    ∧ (e.controller = Vec2.ZERO → ¬ step_event (step_entity_tick dt e))
    ∧ (0 < e.step.duration → e.step.elapsed + dt < e.step.duration →
        ¬ step_event (step_entity_tick dt e)) := by
  refine ⟨rfl, Iff.rfl, ?_, ?_⟩
  · intro h hev
    exact hev.1 h
  · intro hdur hlt hev
    have hjf : (e.step.tick dt).justFinished = true := hev.2
    simp [RepeatingTimer.tick, hdur, not_le.mpr hlt] at hjf

/-- C5 witness: a moving entity whose timer crosses its duration fires; a
stationary entity with the same crossing timer does not; a moving entity
whose timer stays below its duration does not. -/
theorem c5_witness :
    step_event (step_entity_tick 0.1
      { controller := ⟨1, 0⟩, step := ⟨0.3, 0.25, false⟩ })
    ∧ ¬ step_event (step_entity_tick 0.1
      { controller := Vec2.ZERO, step := ⟨0.3, 0.25, false⟩ })
    ∧ ¬ step_event (step_entity_tick 0.1
      { controller := ⟨1, 0⟩, step := ⟨0.3, 0.1, false⟩ }) := by
  refine ⟨?_, ?_, ?_⟩
  · refine (c5_step_sfx_edge_trigger _ _).2.1.mpr ⟨?_, ?_⟩
    · intro h
      have hx := congrArg Vec2.x h
      norm_num [Vec2.ZERO] at hx
    · show (RepeatingTimer.tick ⟨0.3, 0.25, false⟩ (0.1 : ℚ)).justFinished = true
      norm_num [RepeatingTimer.tick]
  · exact (c5_step_sfx_edge_trigger _ _).2.2.1 rfl
  · exact (c5_step_sfx_edge_trigger _ _).2.2.2
      (by show (0 : ℚ) < 0.3; norm_num)
      (by show (0.1 : ℚ) + 0.1 < 0.3; norm_num)

/-! ### Spawn-cascade lemmas -/

/-- Counting players distributes over world concatenation. -/
lemma playerCount_append (w1 w2 : World) :
    playerCount (w1 ++ w2) = playerCount w1 + playerCount w2 := by
  simp [playerCount, List.countP_append]

/-- Appending player-marker-free components does not make an entity a
player. -/
lemma isPlayer_append (e cs : List Comp) (h : Comp.playerMarker ∉ cs) :
    isPlayer (e ++ cs) = isPlayer e := by
  unfold isPlayer
  exact decide_eq_decide.mpr (by simp [List.mem_append, h])

/-- Inserting player-marker-free components anywhere preserves the player
count. -/
lemma playerCount_insertComps (cs : List Comp) (hcs : Comp.playerMarker ∉ cs) :
    ∀ (id : ℕ) (w : World), playerCount (insertComps id cs w) = playerCount w := by
  intro id w
  induction w generalizing id with
  | nil => rfl
  | cons e tl ih =>
      cases id with
      | zero =>
          show playerCount ((e ++ cs) :: tl) = playerCount (e :: tl)
          simp [playerCount, List.countP_cons, isPlayer_append e cs hcs]
      | succ n =>
          show playerCount (e :: insertComps n cs tl) = playerCount (e :: tl)
          have := ih n
          simp only [playerCount, List.countP_cons] at this ⊢
          omega

/-- Running a constructor on the freshly appended empty entity just appends
the constructor's components as a new entity. -/
lemma insertComps_fresh (w : World) (cs : List Comp) :
    insertComps w.length cs (w ++ [[]]) = w ++ [cs] := by
  induction w with
  | nil => simp [insertComps]
  | cons e tl ih =>
      show e :: insertComps tl.length cs (tl ++ [[]]) = e :: (tl ++ [cs])
      rw [ih]

/-- C4: spawning the level yields exactly one player entity, and the nested
player construction completes inside the level handler (depth-first): on the
observer path the handled world is literally the `SpawnPlayer`-handled
world, and on the constructor path `level` returns the world with the fully
constructed player already appended. -/
theorem c4_level_spawns_one_player (w : World) (id : ℕ)
    (hw : playerCount w = 0) :
    playerCount (spawn_level w) = 1
    ∧ spawn_level w = spawn_player_observer (w ++ [[Comp.camera]])
    ∧ playerCount (level id w) = 1
    ∧ level id w
        = insertComps id [Comp.name, Comp.levelMarker, Comp.spatialBundle] w
            ++ [playerComponents] := by
  have hcam : playerCount [[Comp.camera]] = 0 := by decide
  have hpc : playerCount [playerComponents] = 1 := by decide
  have hlvl : level id w
      = insertComps id [Comp.name, Comp.levelMarker, Comp.spatialBundle] w
          ++ [playerComponents] := by
    unfold level spawn_with player
    exact insertComps_fresh _ _
  refine ⟨?_, rfl, ?_, hlvl⟩
  · unfold spawn_level spawn_player_observer
    rw [playerCount_append, playerCount_append, hw, hcam, hpc]
  · rw [hlvl, playerCount_append,
      playerCount_insertComps _ (by decide) id w, hw, hpc]

/-- C4 witness: from a playerless world, both spawn paths leave exactly one
player. -/
theorem c4_witness :
    playerCount (spawn_level ([] : World)) = 1
    ∧ playerCount (level 0 ([[]] : World)) = 1 :=
  ⟨(c4_level_spawns_one_player [] 0 rfl).1,
   (c4_level_spawns_one_player [[]] 0 rfl).2.2.1⟩

end Quickstart
